import Mathlib

/-!
Verification development for the BerberBook data-access layer.

The definitions below are a shallow embedding of the repository's
TypeScript code:
  * `lib/db.ts` — connection-pool bootstrap (`initPool`,
    `ensureDatabaseConnection`), the retrying query executor (`query`),
    and the schema migrator (`migrateDatabase`);
  * `lib/actions.ts` — the domain actions (`createAppointment`,
    `createProductSale`, the `delete*` family);
  * the administrative HTTP route handlers (`db-check`, `db-init`,
    `db-reset`).

Database tables are modelled as lists of row records inside a `DBState`;
each SQL statement issued by a domain action is translated to the
corresponding pure operation on that state.  Prices and stock counts are
modelled as integers (`DECIMAL`/`INTEGER` columns), quantities and ids as
naturals.  SERIAL id generation is modelled with explicit per-table
counters.
-/

namespace BerberBook

/-! ## Data model: the six tables (schema from `initDatabase` in lib/db.ts) -/

structure Customer where
  id : Nat
  name : String
  phone : String
  email : String
  visits : Nat
  last_visit : Option String
deriving DecidableEq, Repr

structure Service where
  id : Nat
  name : String
  duration : Nat
  price : Int
  description : String
deriving DecidableEq, Repr

structure Appointment where
  id : Nat
  customer_id : Nat
  service_id : Nat
  date : String
  time : String
  duration : Nat
  status : String
  notes : String
  payment_status : String
  payment_method : Option String
deriving DecidableEq, Repr

structure Product where
  id : Nat
  name : String
  category : String
  price : Int
  stock : Int
  description : String
deriving DecidableEq, Repr

structure Sale where
  id : Nat
  appointment_id : Option Nat
  customer_id : Option Nat
  total : Int
  payment_method : String
  date : String
deriving DecidableEq, Repr

structure SaleItem where
  id : Nat
  sale_id : Nat
  item_id : Nat
  item_type : String
  name : String
  price : Int
  quantity : Nat
deriving DecidableEq, Repr

/-- The database state: one list per table, plus the SERIAL counters for
the tables the modelled actions insert into. -/
structure DBState where
  customers : List Customer
  services : List Service
  appointments : List Appointment
  products : List Product
  sales : List Sale
  sale_items : List SaleItem
  nextAppointmentId : Nat
  nextSaleId : Nat
  nextSaleItemId : Nat
deriving DecidableEq, Repr

/-! ## Connection manager (`initPool` / `ensureDatabaseConnection`, lib/db.ts) -/

/-- What the module-level `pool` variable holds after initialization. -/
inductive PoolState where
  | noPool
  | realPool
  | mockPool
deriving DecidableEq, Repr

/-- The environment facts `initPool` branches on: browser context
(`typeof window !== "undefined"`), availability of the `pg` module,
presence of `process.env.DATABASE_URL`, whether constructing the
`pg.Pool` throws, and whether the `SELECT NOW()` verification query
succeeds. -/
structure InitEnv where
  isBrowser : Bool
  pgAvailable : Bool
  databaseUrl : Option String
  poolCtorThrows : Bool
  verifyOk : Bool
deriving DecidableEq, Repr

/-- Function `initPool` from lib/db.ts: returns the reported success flag and the
resulting pool state.  The branch order follows the source: browser
check, `pg` import, `DATABASE_URL` check, pool construction (whose
exception reaches the outer catch), connection verification. -/
def initPool (env : InitEnv) : Bool × PoolState :=
  if env.isBrowser then
    (true, .mockPool)
  else if !env.pgAvailable then
    (true, .mockPool)
  else
    match env.databaseUrl with
    | none => (false, .noPool)
    | some _ =>
      if env.poolCtorThrows then
        (true, .mockPool)
      else if env.verifyOk then
        (true, .realPool)
      else
        (false, .realPool)

/-- Function `ensureDatabaseConnection` from lib/db.ts: initializes the pool on
first call, reports `true` when a pool already exists. -/
def ensureDatabaseConnection (p : PoolState) (env : InitEnv) : Bool × PoolState :=
  match p with
  | .noPool => initPool env
  | q => (true, q)

/-! ## Query executor (`query`, lib/db.ts): bounded retry loop -/

/-- Outcome of one attempt of `pool.query`: a result row count or a
thrown error message. -/
inductive QueryOutcome where
  | ok (rowCount : Nat)
  | err (msg : String)
deriving DecidableEq, Repr

/-- Infix test on character lists, modelling
JavaScript `String.prototype.includes`. -/
def infixCheck (pat : List Char) : List Char → Bool
  | [] => pat.isEmpty
  | c :: rest => pat.isPrefixOf (c :: rest) || infixCheck pat rest

/-- JavaScript `haystack.includes(needle)`. -/
def strContains (haystack needle : String) : Bool :=
  infixCheck needle.toList haystack.toList

/-- The retriability test from `query` in lib/db.ts: the error message
contains a connection/timeout indicator. -/
def isRetriableError (msg : String) : Bool :=
  strContains msg "Connection terminated" ||
  strContains msg "timeout" ||
  strContains msg "connection"

/-- The `while (currentRetry < maxRetries)` loop of `query`,
with `attempt k` the outcome of the statement execution in the iteration
where `currentRetry = k`.  Returns the final outcome together with the
list of backoff delays (milliseconds) slept between attempts.  The loop
body either returns, retries with `currentRetry+1`, or rethrows, so each
iteration consumes one unit of fuel; the loop condition can never become
false (a retry requires `currentRetry < maxRetries - 1`), so the
fuel-exhausted branch mirrors the unreachable trailing
`throw lastError`. -/
def queryLoopAux (attempt : Nat → QueryOutcome) (maxRetries : Nat) :
    Nat → Nat → QueryOutcome × List Nat
  | 0, _ => (.err "unreachable: loop exited", [])
  | fuel + 1, k =>
    if k < maxRetries then
      match attempt k with
      | .ok r => (.ok r, [])
      | .err m =>
        if isRetriableError m && decide (k < maxRetries - 1) then
          -- delay = 1000 * 2^(currentRetry - 1) after currentRetry — k+1
          let rest := queryLoopAux attempt maxRetries fuel (k + 1)
          (rest.1, (1000 * 2 ^ k) :: rest.2)
        else
          (.err m, [])
    else
      (.err "unreachable: loop exited", [])

/-- Function `query` from lib/db.ts with `maxRetries = 3`: at most the attempts
with `currentRetry = 0, 1, 2`. -/
def queryExec (attempt : Nat → QueryOutcome) : QueryOutcome × List Nat :=
  queryLoopAux attempt 3 3 0

/-! ## Schema migrator (`migrateDatabase`, lib/db.ts) -/

/-- The pieces of schema state that `migrateDatabase` probes through
`information_schema`: the two appointment columns, the three tables, the
`sale_items.item_id` column family, and the stored helper routine it
installs. -/
structure Schema where
  apptPaymentStatus : Bool
  apptPaymentMethod : Bool
  productsTable : Bool
  salesTable : Bool
  saleItemsTable : Bool
  saleItemsItemId : Bool
  helperFn : Bool
deriving DecidableEq, Repr

/-- A SQL statement issued by `migrateDatabase`, classified by kind. -/
inductive Stmt where
  | readInfo (desc : String)
  | alterTable (desc : String)
  | createTable (desc : String)
  | createFunction (desc : String)
deriving DecidableEq, Repr

def Stmt.isAlterTable : Stmt → Bool
  | .alterTable _ => true
  | _ => false

def Stmt.isCreateTable : Stmt → Bool
  | .createTable _ => true
  | _ => false

def Stmt.isRead : Stmt → Bool
  | .readInfo _ => true
  | _ => false

/-- Function `migrateDatabase` from lib/db.ts as a function on the schema state,
returning the new state and the statements issued, in source order.
Each column/table change is guarded by an `information_schema` probe;
the final `CREATE OR REPLACE FUNCTION public.init_sale_items_table()`
is issued unconditionally. -/
def migrateDatabase (s : Schema) : Schema × List Stmt :=
  -- payment_status column on appointments
  let (s, l) :=
    if s.apptPaymentStatus then
      (s, [Stmt.readInfo "columns appointments.payment_status"])
    else
      ({ s with apptPaymentStatus := true },
       [Stmt.readInfo "columns appointments.payment_status",
        Stmt.alterTable "appointments ADD COLUMN payment_status"])
  -- payment_method column on appointments
  let (s, l) :=
    if s.apptPaymentMethod then
      (s, l ++ [Stmt.readInfo "columns appointments.payment_method"])
    else
      ({ s with apptPaymentMethod := true },
       l ++ [Stmt.readInfo "columns appointments.payment_method",
             Stmt.alterTable "appointments ADD COLUMN payment_method"])
  -- products table
  let (s, l) :=
    if s.productsTable then
      (s, l ++ [Stmt.readInfo "tables products"])
    else
      ({ s with productsTable := true },
       l ++ [Stmt.readInfo "tables products", Stmt.createTable "products"])
  -- sales table
  let (s, l) :=
    if s.salesTable then
      (s, l ++ [Stmt.readInfo "tables sales"])
    else
      ({ s with salesTable := true },
       l ++ [Stmt.readInfo "tables sales", Stmt.createTable "sales"])
  -- sale_items table, else its item_id column family
  let (s, l) :=
    if s.saleItemsTable then
      if s.saleItemsItemId then
        (s, l ++ [Stmt.readInfo "tables sale_items",
                  Stmt.readInfo "columns sale_items.item_id"])
      else
        ({ s with saleItemsItemId := true },
         l ++ [Stmt.readInfo "tables sale_items",
               Stmt.readInfo "columns sale_items.item_id",
               Stmt.alterTable "sale_items ADD COLUMN item_id item_type name quantity"])
    else
      ({ s with saleItemsTable := true, saleItemsItemId := true },
       l ++ [Stmt.readInfo "tables sale_items", Stmt.createTable "sale_items"])
  -- unconditional stored-routine install
  ({ s with helperFn := true },
   l ++ [Stmt.createFunction "public.init_sale_items_table"])

/-! ## Administrative HTTP endpoints -/

/-- A JSON HTTP response: the status code and the embedded payload's
success indicator and message. -/
structure HttpResponse where
  status : Nat
  ok : Bool
  message : String
deriving DecidableEq, Repr

/-- Handler `GET /api/db-check` (app/api/db-check/route.ts): only validates that
`DATABASE_URL` is set; both outcomes use HTTP 200, with errors embedded
in the payload. -/
def dbCheckGet (databaseUrl : Option String) : HttpResponse :=
  match databaseUrl with
  | none => { status := 200, ok := false,
              message := "Supabase DATABASE_URL environment variable not set" }
  | some _ => { status := 200, ok := true, message := "Supabase URL is valid" }

/-- Handler `GET /api/db-reset` (app/api/db-reset/route.ts): drop/recreate then
seed; every outcome, including failures and caught exceptions, uses
HTTP 200. -/
def dbResetGet (resetOk seedOk : Bool) : HttpResponse :=
  if !resetOk then
    { status := 200, ok := false, message := "Failed to reset Supabase database" }
  else if !seedOk then
    { status := 200, ok := false, message := "Failed to seed initial data in Supabase" }
  else
    { status := 200, ok := true,
      message := "Supabase database reset and seeded successfully" }

/-- Handler `GET /api/db-init` (app/api/db-init/route.ts): connect, initialize,
migrate, seed.  Failure of any of the first three steps — and the catch
branch — responds with HTTP **500**. -/
def dbInitGet (connected initialized migrated _seeded : Bool) : HttpResponse :=
  if !connected then
    { status := 500, ok := false, message := "Failed to connect to database" }
  else if !initialized then
    { status := 500, ok := false, message := "Failed to initialize database tables" }
  else if !migrated then
    { status := 500, ok := false, message := "Failed to migrate database schema" }
  else
    { status := 200, ok := true,
      message := "Database initialized, migrated, and seeded successfully" }

/-! ## Domain actions (lib/actions.ts) -/

/-- JavaScript `v || d` for an optional number (`undefined` and `0` are
falsy). -/
def jsOrNat (v : Option Nat) (d : Nat) : Nat :=
  match v with
  | none => d
  | some n => if n == 0 then d else n

/-- JavaScript `v || d` for an optional string (`undefined` and `""` are
falsy). -/
def jsOrStr (v : Option String) (d : String) : String :=
  match v with
  | none => d
  | some s => if s == "" then d else s

/-- The `NewAppointment` input type of `createAppointment`
(`Omit<Appointment, "id" | "customer_name" | "service_name">`, with the
optional fields the action defaults). -/
structure NewAppointment where
  customer_id : Nat
  service_id : Nat
  date : String
  time : String
  duration : Option Nat
  status : Option String
  notes : Option String
deriving DecidableEq, Repr

/-- An appointment row joined with the resolved customer/service names,
as `createAppointment` returns it. -/
structure AppointmentRecord where
  appt : Appointment
  customer_name : String
  service_name : String
deriving DecidableEq, Repr

/-- Function `createAppointment` from lib/actions.ts.  Looks up the referenced
customer and service; when one is absent it falls back to the first row
of that table (keeping the requested id and an `"Unknown ..."` name if
the table is empty).  Inserts the appointment, then updates the
customer's `last_visit`/`visits` — but only when the *originally
requested* customer id was found (`customerResult.rows.length > 0`). -/
def createAppointment (db : DBState) (na : NewAppointment) :
    AppointmentRecord × DBState :=
  let customerResult := db.customers.find? (fun c => c.id == na.customer_id)
  let serviceResult := db.services.find? (fun s => s.id == na.service_id)
  let (actualCustomerId, customerName) :=
    match customerResult with
    | some c => (na.customer_id, c.name)
    | none =>
      match db.customers.head? with
      | some c0 => (c0.id, c0.name)
      | none => (na.customer_id, "Unknown Customer")
  let (actualServiceId, serviceName) :=
    match serviceResult with
    | some s => (na.service_id, s.name)
    | none =>
      match db.services.head? with
      | some s0 => (s0.id, s0.name)
      | none => (na.service_id, "Unknown Service")
  let appt : Appointment :=
    { id := db.nextAppointmentId
      customer_id := actualCustomerId
      service_id := actualServiceId
      date := na.date
      time := na.time
      duration := jsOrNat na.duration 30
      status := jsOrStr na.status "onaylandı"
      notes := jsOrStr na.notes ""
      payment_status := "unpaid"
      payment_method := none }
  let db1 := { db with
    appointments := db.appointments ++ [appt]
    nextAppointmentId := db.nextAppointmentId + 1 }
  let db2 :=
    match customerResult with
    | some _ =>
      { db1 with customers := db1.customers.map (fun c =>
          if c.id == actualCustomerId then
            { c with last_visit := some na.date, visits := c.visits + 1 }
          else c) }
    | none => db1
  ({ appt := appt, customer_name := customerName, service_name := serviceName },
   db2)

/-- The structured `{success, message}` object the delete actions
return. -/
structure ActionResult where
  success : Bool
  message : String
deriving DecidableEq, Repr

/-- Function `deleteCustomer` from lib/actions.ts: existence check first, then
the delete; the schema cascades the customer's appointments
(`ON DELETE CASCADE`) and nulls the customer reference of their sales
(`ON DELETE SET NULL`). -/
def deleteCustomer (db : DBState) (id : Nat) : ActionResult × DBState :=
  match db.customers.find? (fun c => c.id == id) with
  | none =>
    ({ success := false
       message := "Customer with ID " ++ toString id ++
         " not found. The customer may have been deleted already." }, db)
  | some _ =>
    ({ success := true, message := "Customer deleted successfully" },
     { db with
        customers := db.customers.filter (fun c => !(c.id == id))
        appointments := db.appointments.filter (fun a => !(a.customer_id == id))
        sales := db.sales.map (fun s =>
          if s.customer_id == some id then { s with customer_id := none } else s) })

/-- Function `deleteService` from lib/actions.ts (same shape; appointments
referencing the service are cascade-deleted). -/
def deleteService (db : DBState) (id : Nat) : ActionResult × DBState :=
  match db.services.find? (fun s => s.id == id) with
  | none =>
    ({ success := false
       message := "Service with ID " ++ toString id ++
         " not found. The service may have been deleted already." }, db)
  | some _ =>
    ({ success := true, message := "Service deleted successfully" },
     { db with
        services := db.services.filter (fun s => !(s.id == id))
        appointments := db.appointments.filter (fun a => !(a.service_id == id)) })

/-- Function `deleteAppointment` from lib/actions.ts. -/
def deleteAppointment (db : DBState) (id : Nat) : ActionResult × DBState :=
  match db.appointments.find? (fun a => a.id == id) with
  | none =>
    ({ success := false
       message := "Appointment with ID " ++ toString id ++
         " not found. The appointment may have been deleted already." }, db)
  | some _ =>
    ({ success := true, message := "Appointment deleted successfully" },
     { db with appointments := db.appointments.filter (fun a => !(a.id == id)) })

/-- Function `deleteProduct` from lib/actions.ts. -/
def deleteProduct (db : DBState) (id : Nat) : ActionResult × DBState :=
  match db.products.find? (fun p => p.id == id) with
  | none =>
    ({ success := false
       message := "Product with ID " ++ toString id ++
         " not found. The product may have been deleted already." }, db)
  | some _ =>
    ({ success := true, message := "Product deleted successfully" },
     { db with products := db.products.filter (fun p => !(p.id == id)) })

/-! ## Product-sale checkout (`createProductSale`, lib/actions.ts) -/

/-- One entry of the `items` argument of `createProductSale`. -/
structure SaleRequestItem where
  productId : Nat
  quantity : Nat
deriving DecidableEq, Repr

/-- Result of `createProductSale`: the `{success:true, sale}` payload or
the `{success:false, message}` object. -/
inductive SaleResult where
  | ok (sale : Sale) (items : List SaleItem) (customer_name : String)
  | failure (message : String)
deriving DecidableEq, Repr

/-- The validation loop of `createProductSale`: looks each requested
product up, rejects an unknown product or a quantity exceeding its
stock, and accumulates the running total (`price * quantity`) and the
validated (product, quantity) pairs, in request order. -/
def validateItems (db : DBState) : List SaleRequestItem →
    Except String (Int × List (Product × Nat))
  | [] => .ok (0, [])
  | it :: rest =>
    match db.products.find? (fun p => p.id == it.productId) with
    | none => .error ("Product with ID " ++ toString it.productId ++ " not found.")
    | some p =>
      if p.stock < (it.quantity : Int) then
        .error ("Not enough stock for " ++ p.name ++ ". Available: " ++
          toString p.stock)
      else
        match validateItems db rest with
        | .error m => .error m
        | .ok (t, vs) => .ok (t + p.price * (it.quantity : Int), (p, it.quantity) :: vs)

/-- The per-product `UPDATE products SET stock = stock - $1 WHERE id = $2`. -/
def decStock (pid : Nat) (qty : Nat) (p : Product) : Product :=
  if p.id == pid then { p with stock := p.stock - (qty : Int) } else p

/-- The write loop of `createProductSale`: for each validated item,
insert the `sale_items` row and decrement the product's stock.  (In the
modelled schema the `item_id` column exists, so the legacy-layout
fallback insert of the source is dead code here.)  Returns the state
and the inserted rows in order. -/
def applySaleItems (saleId : Nat) :
    List (Product × Nat) → DBState → DBState × List SaleItem
  | [], db => (db, [])
  | (p, qty) :: rest, db =>
    let si : SaleItem :=
      { id := db.nextSaleItemId
        sale_id := saleId
        item_id := p.id
        item_type := "product"
        name := p.name
        price := p.price
        quantity := qty }
    let db1 := { db with
      sale_items := db.sale_items ++ [si]
      nextSaleItemId := db.nextSaleItemId + 1
      products := db.products.map (decStock p.id qty) }
    let res := applySaleItems saleId rest db1
    (res.1, si :: res.2)

/-- The products-table effect of the write loop in isolation: the
sequence of per-item stock decrements, in order. -/
def applyDecs : List (Product × Nat) → List Product → List Product
  | [], ps => ps
  | (p, q) :: rest, ps => applyDecs rest (ps.map (decStock p.id q))

/-- Function `createProductSale` from lib/actions.ts.  The whole operation is a
transaction: every failure path rolls back, i.e. returns the input
state unchanged.  On success: one `sales` row, one `sale_items` row per
request entry, the stock decrements, and the customer's
`last_visit`/`visits` update, then `COMMIT`. -/
def createProductSale (db : DBState) (customerId : Nat)
    (items : List SaleRequestItem) (paymentMethod : String) (today : String) :
    SaleResult × DBState :=
  match db.customers.find? (fun c => c.id == customerId) with
  | none => (.failure "Customer not found.", db)
  | some customer =>
    match validateItems db items with
    | .error msg => (.failure msg, db)
    | .ok (total, vitems) =>
      let sale : Sale :=
        { id := db.nextSaleId
          appointment_id := none
          customer_id := some customerId
          total := total
          payment_method := paymentMethod
          date := today }
      let db1 := { db with
        sales := db.sales ++ [sale]
        nextSaleId := db.nextSaleId + 1 }
      let res := applySaleItems sale.id vitems db1
      let db3 := { res.1 with customers := res.1.customers.map (fun c =>
        if c.id == customerId then
          { c with last_visit := some today, visits := c.visits + 1 }
        else c) }
      (.ok sale res.2 customer.name, db3)

/-! ## Sample fixture used by witnesses and counterexamples -/

/-- A small concrete database: one customer, one service, one product
with stock 5. -/
def sampleDb : DBState where
  customers := [{ id := 1, name := "Ali", phone := "", email := "", visits := 3,
                  last_visit := none }]
  services := [{ id := 1, name := "Cut", duration := 30, price := 100,
                 description := "" }]
  appointments := []
  products := [{ id := 7, name := "Wax", category := "c", price := 120, stock := 5,
                 description := "" }]
  sales := []
  sale_items := []
  nextAppointmentId := 1
  nextSaleId := 1
  nextSaleItemId := 1

/-! ## Helper lemmas -/

/-- Lemma: `find?` commutes with mapping a function that preserves the
predicate. -/
theorem find?_map_id_pres {α : Type} (f : α → α) (p : α → Bool)
    (hf : ∀ x, p (f x) = p x) :
    ∀ l : List α, (l.map f).find? p = (l.find? p).map f := by
  intro l
  induction l with
  | nil => rfl
  | cons h t ih =>
    simp only [List.map_cons, List.find?_cons, hf]
    split <;> simp_all

theorem decStock_id (pid q : Nat) (p : Product) : (decStock pid q p).id = p.id := by
  unfold decStock; split <;> rfl

/-! ## Claim theorems -/

/-- Claim C3: `query(sql, params)` retries a failing statement only when
the error message contains a connection/timeout indicator, performs at
most 2 retries with backoff delays of 1 second then 2 seconds
(`delays` is always a prefix of `[1000, 2000]` ms, and a sleep before
retry `k+1` happens only after a retriable failure of attempt `k`),
otherwise propagates the error unchanged (any error returned is exactly
the one some attempt threw), and a non-transient error propagates
immediately without any retry. -/
theorem query_retry_policy (attempt : Nat → QueryOutcome) :
    (∃ n, (queryExec attempt).2 = [1000, 2000].take n) ∧
    (∀ m, (queryExec attempt).1 = .err m → ∃ k, k < 3 ∧ attempt k = .err m) ∧
    (∀ k, k < (queryExec attempt).2.length →
      ∃ m, attempt k = .err m ∧ isRetriableError m = true) ∧
    (∀ m, attempt 0 = .err m → isRetriableError m = false →
      queryExec attempt = (.err m, [])) := by
  rcases h0 : attempt 0 with r0 | m0
  · have hq : queryExec attempt = (.ok r0, []) := by
      simp [queryExec, queryLoopAux, h0]
    refine ⟨⟨0, by simp [hq]⟩, ?_, ?_, ?_⟩
    · intro m hm; rw [hq] at hm; simp at hm
    · intro k hk; rw [hq] at hk; simp at hk
    · intro m hm; simp at hm
  · rcases hr0 : isRetriableError m0 with _ | _
    · have hq : queryExec attempt = (.err m0, []) := by
        simp [queryExec, queryLoopAux, h0, hr0]
      refine ⟨⟨0, by simp [hq]⟩, ?_, ?_, ?_⟩
      · intro m hm; rw [hq] at hm; simp at hm
        exact ⟨0, by omega, by rw [h0, hm]⟩
      · intro k hk; rw [hq] at hk; simp at hk
      · intro m hm hmr; simp at hm; subst hm; exact hq
    · rcases h1 : attempt 1 with r1 | m1
      · have hq : queryExec attempt = (.ok r1, [1000]) := by
          simp [queryExec, queryLoopAux, h0, hr0, h1]
        refine ⟨⟨1, by simp [hq]⟩, ?_, ?_, ?_⟩
        · intro m hm; rw [hq] at hm; simp at hm
        · intro k hk
          rw [hq] at hk; simp at hk
          subst hk
          exact ⟨m0, h0, hr0⟩
        · intro m hm hmr; simp at hm; subst hm; simp [hr0] at hmr
      · rcases hr1 : isRetriableError m1 with _ | _
        · have hq : queryExec attempt = (.err m1, [1000]) := by
            simp [queryExec, queryLoopAux, h0, hr0, h1, hr1]
          refine ⟨⟨1, by simp [hq]⟩, ?_, ?_, ?_⟩
          · intro m hm; rw [hq] at hm; simp at hm
            exact ⟨1, by omega, by rw [h1, hm]⟩
          · intro k hk
            rw [hq] at hk; simp at hk
            subst hk
            exact ⟨m0, h0, hr0⟩
          · intro m hm hmr; simp at hm; subst hm; simp [hr0] at hmr
        · rcases h2 : attempt 2 with r2 | m2
          · have hq : queryExec attempt = (.ok r2, [1000, 2000]) := by
              simp [queryExec, queryLoopAux, h0, hr0, h1, hr1, h2]
            refine ⟨⟨2, by simp [hq]⟩, ?_, ?_, ?_⟩
            · intro m hm; rw [hq] at hm; simp at hm
            · intro k hk
              rw [hq] at hk; simp at hk
              interval_cases k
              · exact ⟨m0, h0, hr0⟩
              · exact ⟨m1, h1, hr1⟩
            · intro m hm hmr; simp at hm; subst hm; simp [hr0] at hmr
          · have hq : queryExec attempt = (.err m2, [1000, 2000]) := by
              simp [queryExec, queryLoopAux, h0, hr0, h1, hr1, h2]
            refine ⟨⟨2, by simp [hq]⟩, ?_, ?_, ?_⟩
            · intro m hm; rw [hq] at hm; simp at hm
              exact ⟨2, by omega, by rw [h2, hm]⟩
            · intro k hk
              rw [hq] at hk; simp at hk
              interval_cases k
              · exact ⟨m0, h0, hr0⟩
              · exact ⟨m1, h1, hr1⟩
            · intro m hm hmr; simp at hm; subst hm; simp [hr0] at hmr

/-- Witness for C3: a first attempt failing with a non-retriable message
propagates immediately, with no retry and no delay. -/
theorem query_retry_policy_witness :
    queryExec (fun _ => .err "syntax error") = (.err "syntax error", []) :=
  (query_retry_policy (fun _ => .err "syntax error")).2.2.2 "syntax error" rfl (by decide)

/-- Claim C4, counterexample: in a server context with the `pg` driver
available but `DATABASE_URL` unset, `initPool` returns `false` (hard
failure) and leaves the pool unset — it does **not** substitute the
in-memory mock pool, contradicting the claim that any construction
failure (including a missing credential) falls back to the mock with
success.  `ensureDatabaseConnection` then reports the same failure. -/
theorem initPool_missing_url_no_mock :
    initPool { isBrowser := false, pgAvailable := true, databaseUrl := none,
               poolCtorThrows := false, verifyOk := true } = (false, .noPool) ∧
    ensureDatabaseConnection .noPool
      { isBrowser := false, pgAvailable := true, databaseUrl := none,
        poolCtorThrows := false, verifyOk := true } = (false, .noPool) := by
  constructor <;> rfl

/-- Claim C4 (amended): the mock-pool fallback with reported success
covers exactly the browser context, the missing `pg` driver, and an
exception while constructing the pool; a missing `DATABASE_URL` returns
failure with no pool at all, and a failed connection verification
returns failure with the real pool left in place. -/
theorem initPool_fallback_policy (env : InitEnv) :
    (env.isBrowser = true → initPool env = (true, .mockPool)) ∧
    (env.isBrowser = false → env.pgAvailable = false →
      initPool env = (true, .mockPool)) ∧
    (env.isBrowser = false → env.pgAvailable = true → env.databaseUrl = none →
      initPool env = (false, .noPool)) ∧
    (∀ u, env.isBrowser = false → env.pgAvailable = true →
      env.databaseUrl = some u → env.poolCtorThrows = true →
      initPool env = (true, .mockPool)) ∧
    (∀ u, env.isBrowser = false → env.pgAvailable = true →
      env.databaseUrl = some u → env.poolCtorThrows = false →
      env.verifyOk = false → initPool env = (false, .realPool)) := by
  refine ⟨?_, ?_, ?_, ?_, ?_⟩
  · intro h; simp [initPool, h]
  · intro h1 h2; simp [initPool, h1, h2]
  · intro h1 h2 h3; simp [initPool, h1, h2, h3]
  · intro u h1 h2 h3 h4; simp [initPool, h1, h2, h3, h4]
  · intro u h1 h2 h3 h4 h5; simp [initPool, h1, h2, h3, h4, h5]

/-- Witness for C4's amended theorem: the browser environment falls back
to the mock with success, and a missing `DATABASE_URL` fails without the
mock. -/
theorem initPool_fallback_policy_witness :
    initPool { isBrowser := true, pgAvailable := true, databaseUrl := some "u",
               poolCtorThrows := false, verifyOk := true } = (true, .mockPool) ∧
    initPool { isBrowser := false, pgAvailable := true, databaseUrl := none,
               poolCtorThrows := false, verifyOk := true } = (false, .noPool) :=
  ⟨(initPool_fallback_policy _).1 rfl, (initPool_fallback_policy _).2.2.1 rfl rfl rfl⟩

/-- Claim C5, counterexample: the second of two consecutive
`migrateDatabase()` runs is not read-only — it unconditionally issues
the `CREATE OR REPLACE FUNCTION public.init_sale_items_table()`
statement again (here starting from the fully unmigrated schema). -/
theorem migrate_second_run_issues_create :
    Stmt.createFunction "public.init_sale_items_table" ∈
      (migrateDatabase (migrateDatabase
        ⟨false, false, false, false, false, false, false⟩).1).2 ∧
    ¬ ((migrateDatabase (migrateDatabase
        ⟨false, false, false, false, false, false, false⟩).1).2.all Stmt.isRead) := by
  constructor <;> decide

/-- Claim C5 (amended): a second consecutive `migrateDatabase()` run
issues no `ALTER TABLE` and no `CREATE TABLE` statement — every
table/column change is guarded by an `information_schema` existence
check that succeeds after the first run — though it does re-issue the
unconditional `CREATE OR REPLACE FUNCTION` helper install. -/
theorem migrate_second_run_no_table_ddl (s : Schema) :
    ((migrateDatabase (migrateDatabase s).1).2.all
      (fun st => !st.isAlterTable && !st.isCreateTable)) = true := by
  obtain ⟨a, b, c, d, e, f, g⟩ := s
  revert a b c d e f g
  decide

/-- Claim C6, counterexample: the `GET /api/db-init` handler responds
with HTTP 500 — not 200 — when the database connection step fails, so
not every administrative endpoint embeds failures in a 200 response. -/
theorem dbInit_returns_500_on_failure :
    (dbInitGet false false false false).status = 500 ∧
    (dbInitGet false false false false).status ≠ 200 := by
  constructor <;> decide

/-- Claim C6 (amended): `db-check` and `db-reset` respond with HTTP 200
for every outcome, embedding errors in the JSON payload; `db-init`
responds 200 on success but 500 when the connection, initialization, or
migration step fails. -/
theorem admin_endpoint_status_policy (u : Option String) (r sd c i m s2 : Bool) :
    (dbCheckGet u).status = 200 ∧
    (dbResetGet r sd).status = 200 ∧
    (dbInitGet c i m s2).status = (if c && i && m then 200 else 500) := by
  refine ⟨?_, ?_, ?_⟩
  · cases u <;> rfl
  · cases r <;> cases sd <;> rfl
  · cases c <;> cases i <;> cases m <;> rfl

/-- Claim C9: for every entity type, deleting an id that matches no row
returns the structured `{success:false, message}` object and leaves the
database unchanged; the action returns the failure object as a value
(the source's catch-all never sees a thrown not-found error because the
existence check runs first). -/
theorem delete_nonexistent_structured_failure (db : DBState) (id : Nat) :
    (db.customers.find? (fun c => c.id == id) = none →
      (deleteCustomer db id).1.success = false ∧ (deleteCustomer db id).2 = db) ∧
    (db.services.find? (fun s => s.id == id) = none →
      (deleteService db id).1.success = false ∧ (deleteService db id).2 = db) ∧
    (db.appointments.find? (fun a => a.id == id) = none →
      (deleteAppointment db id).1.success = false ∧
        (deleteAppointment db id).2 = db) ∧
    (db.products.find? (fun p => p.id == id) = none →
      (deleteProduct db id).1.success = false ∧ (deleteProduct db id).2 = db) := by
  refine ⟨?_, ?_, ?_, ?_⟩ <;> intro h
  · simp [deleteCustomer, h]
  · simp [deleteService, h]
  · simp [deleteAppointment, h]
  · simp [deleteProduct, h]

/-- Witness for C9: deleting id 99 from the sample database fails with a
structured object for all four entity types and changes nothing. -/
theorem delete_nonexistent_witness :
    ((deleteCustomer sampleDb 99).1.success = false ∧
      (deleteCustomer sampleDb 99).2 = sampleDb) ∧
    ((deleteService sampleDb 99).1.success = false ∧
      (deleteService sampleDb 99).2 = sampleDb) ∧
    ((deleteAppointment sampleDb 99).1.success = false ∧
      (deleteAppointment sampleDb 99).2 = sampleDb) ∧
    ((deleteProduct sampleDb 99).1.success = false ∧
      (deleteProduct sampleDb 99).2 = sampleDb) :=
  ⟨(delete_nonexistent_structured_failure sampleDb 99).1 (by decide),
   (delete_nonexistent_structured_failure sampleDb 99).2.1 (by decide),
   (delete_nonexistent_structured_failure sampleDb 99).2.2.1 (by decide),
   (delete_nonexistent_structured_failure sampleDb 99).2.2.2 (by decide)⟩

/-- The write loop of the checkout never touches the customers table. -/
theorem applySaleItems_customers (saleId : Nat) (v : List (Product × Nat))
    (db : DBState) : (applySaleItems saleId v db).1.customers = db.customers := by
  induction v generalizing db with
  | nil => rfl
  | cons pq rest ih =>
    obtain ⟨p, q⟩ := pq
    simp only [applySaleItems]
    rw [ih]

/-- The write loop of the checkout never touches the sales table. -/
theorem applySaleItems_sales (saleId : Nat) (v : List (Product × Nat))
    (db : DBState) : (applySaleItems saleId v db).1.sales = db.sales := by
  induction v generalizing db with
  | nil => rfl
  | cons pq rest ih =>
    obtain ⟨p, q⟩ := pq
    simp only [applySaleItems]
    rw [ih]

/-- The write loop appends exactly the sale-item rows it returns. -/
theorem applySaleItems_sale_items (saleId : Nat) (v : List (Product × Nat))
    (db : DBState) :
    (applySaleItems saleId v db).1.sale_items =
      db.sale_items ++ (applySaleItems saleId v db).2 := by
  induction v generalizing db with
  | nil => simp [applySaleItems]
  | cons pq rest ih =>
    obtain ⟨p, q⟩ := pq
    simp only [applySaleItems]
    rw [ih]
    simp

/-- Claim C7: when `createAppointment` is called with a `customer_id`
matching no customer row while at least one customer exists, the
appointment is still created (appended to the appointments table), its
stored `customer_id` is the first existing customer's id, and the
returned record's `customer_name` is that customer's name. -/
theorem createAppointment_customer_fallback (db : DBState) (na : NewAppointment)
    (c0 : Customer)
    (hmiss : db.customers.find? (fun c => c.id == na.customer_id) = none)
    (hhead : db.customers.head? = some c0) :
    (createAppointment db na).1.appt.customer_id = c0.id ∧
    (createAppointment db na).1.customer_name = c0.name ∧
    (createAppointment db na).2.appointments =
      db.appointments ++ [(createAppointment db na).1.appt] := by
  simp [createAppointment, hmiss, hhead]

/-- Witness for C7: requesting customer id 2 against the sample database
(whose only customer is id 1, "Ali") still creates the appointment, for
customer 1 under the name "Ali". -/
theorem createAppointment_customer_fallback_witness :
    (createAppointment sampleDb
      ⟨2, 1, "2025-04-01", "10:00", some 30, none, none⟩).1.appt.customer_id = 1 ∧
    (createAppointment sampleDb
      ⟨2, 1, "2025-04-01", "10:00", some 30, none, none⟩).1.customer_name = "Ali" :=
  ⟨(createAppointment_customer_fallback sampleDb _ ⟨1, "Ali", "", "", 3, none⟩
      (by decide) rfl).1,
   (createAppointment_customer_fallback sampleDb _ ⟨1, "Ali", "", "", 3, none⟩
      (by decide) rfl).2.1⟩

/-- Claim C8, counterexample: an appointment created with a nonexistent
customer id resolves to the first existing customer (id 1), yet the
customers table is left completely unchanged — the resolved customer's
`visits`/`last_visit` update is skipped because the source guards it on
the *originally requested* id having been found. -/
theorem createAppointment_fallback_skips_visit_update :
    (createAppointment sampleDb
      ⟨2, 1, "2025-04-01", "10:00", some 30, none, none⟩).1.appt.customer_id = 1 ∧
    (createAppointment sampleDb
      ⟨2, 1, "2025-04-01", "10:00", some 30, none, none⟩).2.customers =
      sampleDb.customers := by
  constructor <;> rfl

/-- Claim C8 (amended): when the appointment's requested customer id
exists, that customer's `visits` is incremented by one and `last_visit`
is set to the appointment's date; for every successful product-sale
checkout the customer's `visits` is incremented by one and `last_visit`
set to the sale date.  (On the appointment fallback path no visit update
occurs — see the counterexample.) -/
theorem visit_update_policy (db : DBState) (na : NewAppointment) (c : Customer)
    (cid : Nat) (items : List SaleRequestItem) (pm today : String) :
    (db.customers.find? (fun x => x.id == na.customer_id) = some c →
      (createAppointment db na).2.customers.find? (fun x => x.id == na.customer_id) =
        some { c with last_visit := some na.date, visits := c.visits + 1 }) ∧
    (∀ s sis cn db', createProductSale db cid items pm today = (.ok s sis cn, db') →
      db.customers.find? (fun x => x.id == cid) = some c →
      db'.customers.find? (fun x => x.id == cid) =
        some { c with last_visit := some today, visits := c.visits + 1 }) := by
  constructor
  · intro h
    have hcid : (c.id == na.customer_id) = true := by simpa using List.find?_some h
    simp only [createAppointment, h]
    rw [find?_map_id_pres _ _ (fun x => by split <;> rfl)]
    rw [h]
    have hce : c.id = na.customer_id := by simpa using hcid
    simp [hce]
  · intro s sis cn db' hrun hfound
    have hcid : (c.id == cid) = true := by simpa using List.find?_some hfound
    rw [createProductSale] at hrun
    rw [hfound] at hrun
    cases hv : validateItems db items with
    | error m => rw [hv] at hrun; simp at hrun
    | ok tv =>
      obtain ⟨total, v⟩ := tv
      rw [hv] at hrun
      simp only [Prod.mk.injEq, SaleResult.ok.injEq] at hrun
      obtain ⟨⟨hs, hsis, hcn⟩, hdb⟩ := hrun
      subst hdb
      simp only []
      rw [applySaleItems_customers]
      rw [find?_map_id_pres _ _ (fun x => by split <;> rfl)]
      rw [hfound]
      have hce : c.id = cid := by simpa using hcid
      simp [hce]

/-- Witness for C8's amended theorem: creating an appointment for the
existing customer 1 of the sample database bumps their visits to 4 and
stamps `last_visit`; so does a successful checkout. -/
theorem visit_update_policy_witness :
    (createAppointment sampleDb
      ⟨1, 1, "2025-04-01", "10:00", some 30, none, none⟩).2.customers.find?
        (fun x => x.id == 1) =
      some { id := 1, name := "Ali", phone := "", email := "", visits := 4,
             last_visit := some "2025-04-01" } ∧
    (createProductSale sampleDb 1 [⟨7, 2⟩] "card" "2025-04-02").2.customers.find?
        (fun x => x.id == 1) =
      some { id := 1, name := "Ali", phone := "", email := "", visits := 4,
             last_visit := some "2025-04-02" } := by
  constructor
  · exact (visit_update_policy sampleDb
      ⟨1, 1, "2025-04-01", "10:00", some 30, none, none⟩
      { id := 1, name := "Ali", phone := "", email := "", visits := 3,
        last_visit := none } 1 [] "" "").1 rfl
  · exact (visit_update_policy sampleDb
      ⟨1, 1, "2025-04-01", "10:00", some 30, none, none⟩
      { id := 1, name := "Ali", phone := "", email := "", visits := 3,
        last_visit := none } 1 [⟨7, 2⟩] "card" "2025-04-02").2 _ _ _ _ rfl rfl

/-- The write loop's products-table effect is exactly `applyDecs` on the
validated items. -/
theorem applySaleItems_products (saleId : Nat) (v : List (Product × Nat))
    (db : DBState) : (applySaleItems saleId v db).1.products = applyDecs v db.products := by
  induction v generalizing db with
  | nil => rfl
  | cons pq rest ih =>
    obtain ⟨p, q⟩ := pq
    simp only [applySaleItems, applyDecs]
    rw [ih]

/-- Products whose id occurs in none of the decremented items are left
untouched by `applyDecs` (as observed through `find?`). -/
theorem applyDecs_find_not_mem (x : Nat) :
    ∀ (v : List (Product × Nat)), (∀ e ∈ v, e.1.id ≠ x) →
    ∀ ps : List Product,
      (applyDecs v ps).find? (fun p => p.id == x) = ps.find? (fun p => p.id == x) := by
  intro v
  induction v with
  | nil => intro _ ps; rfl
  | cons pq rest ih =>
    intro h ps
    obtain ⟨p, q⟩ := pq
    have hp : p.id ≠ x := h (p, q) (List.mem_cons_self _ _)
    simp only [applyDecs]
    rw [ih (fun e he => h e (List.mem_cons_of_mem _ he))]
    rw [find?_map_id_pres _ _ (fun y => by simp [decStock_id])]
    cases hf : ps.find? (fun p => p.id == x) with
    | none => rfl
    | some r =>
      have hr : r.id = x := by simpa using List.find?_some hf
      have hxp : (r.id == p.id) = false := by
        rw [hr]
        exact beq_eq_false_iff_ne.mpr (fun hh => hp hh.symm)
      simp [decStock, hxp]

/-- When the decremented items carry pairwise-distinct product ids, the
product matching a member `(p0, q0)` ends with its stock decreased by
exactly `q0`. -/
theorem applyDecs_find_of_mem (p0 : Product) (q0 : Nat) :
    ∀ (v : List (Product × Nat)), (p0, q0) ∈ v →
    (v.map (fun e => e.1.id)).Nodup →
    ∀ (ps : List Product) (r : Product),
      ps.find? (fun x => x.id == p0.id) = some r →
      (applyDecs v ps).find? (fun x => x.id == p0.id) =
        some { r with stock := r.stock - (q0 : Int) } := by
  intro v
  induction v with
  | nil => intro hmem; cases hmem
  | cons pq rest ih =>
    intro hmem hnd ps r hfind
    obtain ⟨p, q⟩ := pq
    have hndc : p.id ∉ rest.map (fun e => e.1.id) ∧
        (rest.map (fun e => e.1.id)).Nodup := by
      rw [List.map_cons, List.nodup_cons] at hnd
      exact hnd
    have hr : r.id = p0.id := by simpa using List.find?_some hfind
    simp only [applyDecs]
    rcases List.mem_cons.mp hmem with heq | hmem'
    · -- the head is the item in question
      obtain ⟨hp, hq⟩ := Prod.mk.injEq .. |>.mp heq
      subst hp; subst hq
      have hrest : ∀ e ∈ rest, e.1.id ≠ p0.id := by
        intro e he hcontra
        exact hndc.1 (List.mem_map.mpr ⟨e, he, hcontra⟩)
      rw [applyDecs_find_not_mem p0.id rest hrest]
      rw [find?_map_id_pres _ _ (fun y => by simp [decStock_id])]
      rw [hfind]
      have hrt : (r.id == p0.id) = true := by rw [hr]; simp
      simp [decStock, hrt]
    · -- the item in question lies in the tail
      have hne : p.id ≠ p0.id := by
        intro hcontra
        exact hndc.1 (hcontra ▸ List.mem_map.mpr ⟨(p0, q0), hmem', rfl⟩)
      apply ih hmem' hndc.2
      rw [find?_map_id_pres _ _ (fun y => by simp [decStock_id])]
      rw [hfind]
      have hxf : (r.id == p.id) = false := by
        rw [hr]
        exact beq_eq_false_iff_ne.mpr (fun hh => hne hh.symm)
      simp [decStock, hxf]

/-- Soundness of the validation loop: every requested item resolves to a
product with sufficient stock, and that (product, quantity) pair is
among the validated items. -/
theorem validateItems_ok_mem (db : DBState) :
    ∀ (items : List SaleRequestItem) (t : Int) (v : List (Product × Nat)),
      validateItems db items = .ok (t, v) →
      ∀ it ∈ items, ∃ p,
        db.products.find? (fun x => x.id == it.productId) = some p ∧
        ¬ p.stock < (it.quantity : Int) ∧ (p, it.quantity) ∈ v := by
  intro items
  induction items with
  | nil => intro t v _ it hmem; cases hmem
  | cons a rest ih =>
    intro t v hok it hmem
    cases hfa : db.products.find? (fun x => x.id == a.productId) with
    | none => rw [validateItems, hfa] at hok; cases hok
    | some pa =>
      rw [validateItems, hfa] at hok
      simp only [] at hok
      by_cases hba : pa.stock < (a.quantity : Int)
      · rw [if_pos hba] at hok; cases hok
      · rw [if_neg hba] at hok
        cases hrest : validateItems db rest with
        | error m => rw [hrest] at hok; cases hok
        | ok tv =>
          obtain ⟨t', vs⟩ := tv
          rw [hrest] at hok
          simp only [Except.ok.injEq, Prod.mk.injEq] at hok
          obtain ⟨_, hveq⟩ := hok
          rcases List.mem_cons.mp hmem with rfl | hmem'
          · exact ⟨pa, hfa, hba, by rw [← hveq]; exact List.mem_cons_self _ _⟩
          · obtain ⟨p, h1, h2, h3⟩ := ih t' vs hrest it hmem'
            exact ⟨p, h1, h2, by rw [← hveq]; exact List.mem_cons_of_mem _ h3⟩

/-- The validated items carry the requested product ids, in order. -/
theorem validateItems_ok_ids (db : DBState) :
    ∀ (items : List SaleRequestItem) (t : Int) (v : List (Product × Nat)),
      validateItems db items = .ok (t, v) →
      v.map (fun e => e.1.id) = items.map (fun it => it.productId) := by
  intro items
  induction items with
  | nil =>
    intro t v hok
    rw [validateItems] at hok
    simp only [Except.ok.injEq, Prod.mk.injEq] at hok
    rw [← hok.2]
    rfl
  | cons a rest ih =>
    intro t v hok
    cases hfa : db.products.find? (fun x => x.id == a.productId) with
    | none => rw [validateItems, hfa] at hok; cases hok
    | some pa =>
      rw [validateItems, hfa] at hok
      simp only [] at hok
      by_cases hba : pa.stock < (a.quantity : Int)
      · rw [if_pos hba] at hok; cases hok
      · rw [if_neg hba] at hok
        cases hrest : validateItems db rest with
        | error m => rw [hrest] at hok; cases hok
        | ok tv =>
          obtain ⟨t', vs⟩ := tv
          rw [hrest] at hok
          simp only [Except.ok.injEq, Prod.mk.injEq] at hok
          obtain ⟨_, hveq⟩ := hok
          have hpa : pa.id = a.productId := by simpa using List.find?_some hfa
          rw [← hveq]
          simp only [List.map_cons, hpa]
          rw [ih t' vs hrest]

/-- An item whose quantity exceeds its product's stock makes the
validation loop fail with an error. -/
theorem validateItems_error_of_insufficient (db : DBState) :
    ∀ (items : List SaleRequestItem) (it : SaleRequestItem) (p : Product),
      it ∈ items →
      db.products.find? (fun x => x.id == it.productId) = some p →
      p.stock < (it.quantity : Int) →
      ∃ msg, validateItems db items = .error msg := by
  intro items
  induction items with
  | nil => intro it p hmem; cases hmem
  | cons a rest ih =>
    intro it p hmem hfind hbad
    cases hfa : db.products.find? (fun x => x.id == a.productId) with
    | none => exact ⟨_, by rw [validateItems, hfa]⟩
    | some pa =>
      by_cases hba : pa.stock < (a.quantity : Int)
      · exact ⟨_, by rw [validateItems, hfa]; simp only []; rw [if_pos hba]⟩
      · rcases List.mem_cons.mp hmem with rfl | hmem'
        · rw [hfa] at hfind
          injection hfind with hfe
          subst hfe
          exact absurd hbad hba
        · obtain ⟨m, hm⟩ := ih it p hmem' hfind hbad
          exact ⟨m, by rw [validateItems, hfa]; simp only []; rw [if_neg hba, hm]⟩

/-- Claim C1: whenever some requested item's quantity exceeds its
product's current stock, `createProductSale` returns the structured
failure object and the database state is returned unchanged — no stock
is modified and no Sale or SaleItem row is created (the transaction is
rolled back). -/
theorem createProductSale_insufficient_stock_rolls_back (db : DBState) (cid : Nat)
    (items : List SaleRequestItem) (pm today : String) (it : SaleRequestItem)
    (p : Product) (hmem : it ∈ items)
    (hfind : db.products.find? (fun x => x.id == it.productId) = some p)
    (hbad : p.stock < (it.quantity : Int)) :
    ∃ msg, createProductSale db cid items pm today = (.failure msg, db) := by
  cases hc : db.customers.find? (fun c => c.id == cid) with
  | none => exact ⟨"Customer not found.", by rw [createProductSale, hc]⟩
  | some c =>
    obtain ⟨m, hm⟩ := validateItems_error_of_insufficient db items it p hmem hfind hbad
    exact ⟨m, by rw [createProductSale, hc, hm]⟩

/-- Witness for C1: requesting 6 units of the stock-5 product leaves the
sample database untouched. -/
theorem createProductSale_insufficient_stock_witness :
    (createProductSale sampleDb 1 [⟨7, 6⟩] "cash" "2025-04-02").2 = sampleDb := by
  obtain ⟨m, hm⟩ := createProductSale_insufficient_stock_rolls_back sampleDb 1
    [⟨7, 6⟩] "cash" "2025-04-02" ⟨7, 6⟩
    { id := 7, name := "Wax", category := "c", price := 120, stock := 5,
      description := "" }
    (List.mem_cons_self _ _) rfl (by decide)
  rw [hm]

/-- Claim C2: with an existing customer and a single line item of
quantity 3 against an existing product with stock 5, `createProductSale`
succeeds: the product's stock becomes 2, exactly one Sale row is
appended whose total is the product's price times 3, and exactly one
SaleItem row references that Sale (given that no pre-existing SaleItem
row carries the freshly assigned sale id). -/
theorem createProductSale_single_item_happy (db : DBState) (cid pid : Nat)
    (c : Customer) (p : Product) (pm today : String)
    (hc : db.customers.find? (fun x => x.id == cid) = some c)
    (hp : db.products.find? (fun x => x.id == pid) = some p)
    (hstock : p.stock = 5)
    (hfresh : ∀ si ∈ db.sale_items, si.sale_id ≠ db.nextSaleId) :
    ∃ sale si db',
      createProductSale db cid [⟨pid, 3⟩] pm today = (.ok sale [si] c.name, db') ∧
      sale.total = p.price * 3 ∧
      db'.sales = db.sales ++ [sale] ∧
      si.sale_id = sale.id ∧
      (db'.sale_items.filter (fun x => x.sale_id == sale.id)).length = 1 ∧
      db'.products.find? (fun x => x.id == pid) = some { p with stock := 2 } := by
  have hv : validateItems db [⟨pid, 3⟩] = .ok (0 + p.price * 3, [(p, 3)]) := by
    rw [validateItems, hp]
    simp only []
    rw [if_neg (by rw [hstock]; decide)]
    rfl
  have hpid : p.id = pid := by simpa using List.find?_some hp
  refine ⟨{ id := db.nextSaleId, appointment_id := none, customer_id := some cid,
            total := 0 + p.price * 3, payment_method := pm, date := today },
          { id := db.nextSaleItemId, sale_id := db.nextSaleId, item_id := p.id,
            item_type := "product", name := p.name, price := p.price,
            quantity := 3 },
          { customers := db.customers.map (fun c2 =>
              if c2.id == cid then
                { c2 with last_visit := some today, visits := c2.visits + 1 }
              else c2)
            services := db.services
            appointments := db.appointments
            products := db.products.map (decStock p.id 3)
            sales := db.sales ++
              [{ id := db.nextSaleId, appointment_id := none,
                 customer_id := some cid, total := 0 + p.price * 3,
                 payment_method := pm, date := today }]
            sale_items := db.sale_items ++
              [{ id := db.nextSaleItemId, sale_id := db.nextSaleId,
                 item_id := p.id, item_type := "product", name := p.name,
                 price := p.price, quantity := 3 }]
            nextAppointmentId := db.nextAppointmentId
            nextSaleId := db.nextSaleId + 1
            nextSaleItemId := db.nextSaleItemId + 1 },
          ?_, ?_, ?_, ?_, ?_, ?_⟩
  · rw [createProductSale, hc]
    simp only []
    rw [hv]
    simp only [applySaleItems]
  · exact zero_add _
  · rfl
  · rfl
  · have h1 : db.sale_items.filter (fun x => x.sale_id == db.nextSaleId) = [] :=
      List.filter_eq_nil_iff.mpr (fun a ha => by simpa using hfresh a ha)
    simp only [List.filter_append, h1]
    simp
  · rw [find?_map_id_pres _ _ (fun y => by simp [decStock_id]), hp]
    have h2 : (5 : Int) - 3 = 2 := by norm_num
    simp [decStock, hstock, h2]

/-- Witness for C2: the concrete checkout of 3 units of the stock-5
product in the sample database. -/
theorem createProductSale_single_item_witness :
    ∃ sale si db',
      createProductSale sampleDb 1 [⟨7, 3⟩] "cash" "2025-04-02" =
        (.ok sale [si] "Ali", db') ∧
      sale.total = 120 * 3 ∧
      db'.sales = sampleDb.sales ++ [sale] ∧
      si.sale_id = sale.id ∧
      (db'.sale_items.filter (fun x => x.sale_id == sale.id)).length = 1 ∧
      db'.products.find? (fun x => x.id == 7) =
        some { id := 7, name := "Wax", category := "c", price := 120, stock := 2,
               description := "" } :=
  createProductSale_single_item_happy sampleDb 1 7
    { id := 1, name := "Ali", phone := "", email := "", visits := 3,
      last_visit := none }
    { id := 7, name := "Wax", category := "c", price := 120, stock := 5,
      description := "" }
    "cash" "2025-04-02" rfl rfl rfl (by simp [sampleDb])

/-- Claim C10: a successful `createProductSale` whose item list carries
pairwise-distinct product ids decrements each referenced product's stock
by exactly that item's requested quantity, and the resulting stock is
non-negative — each entry was validated against the product's pre-sale
stock. -/
theorem createProductSale_distinct_ids_stock (db db' : DBState) (cid : Nat)
    (items : List SaleRequestItem) (pm today : String) (s : Sale)
    (sis : List SaleItem) (cn : String)
    (hrun : createProductSale db cid items pm today = (.ok s sis cn, db'))
    (hnd : (items.map (fun it => it.productId)).Nodup) :
    ∀ it ∈ items, ∀ p,
      db.products.find? (fun x => x.id == it.productId) = some p →
      db'.products.find? (fun x => x.id == it.productId) =
        some { p with stock := p.stock - (it.quantity : Int) } ∧
      0 ≤ p.stock - (it.quantity : Int) := by
  cases hc : db.customers.find? (fun c => c.id == cid) with
  | none => rw [createProductSale, hc] at hrun; cases hrun
  | some customer =>
    cases hv : validateItems db items with
    | error m =>
      rw [createProductSale, hc] at hrun
      simp only [] at hrun
      rw [hv] at hrun
      cases hrun
    | ok tv =>
      obtain ⟨total, v⟩ := tv
      rw [createProductSale, hc] at hrun
      simp only [] at hrun
      rw [hv] at hrun
      simp only [Prod.mk.injEq, SaleResult.ok.injEq] at hrun
      obtain ⟨⟨hs, hsis, hcn⟩, hdb⟩ := hrun
      subst hdb
      intro it hmem p hfind
      have hpid : p.id = it.productId := by simpa using List.find?_some hfind
      obtain ⟨p', hf', hsle, hvmem⟩ := validateItems_ok_mem db items total v hv it hmem
      rw [hfind] at hf'
      injection hf' with hpp
      subst hpp
      have hndv : (v.map (fun e => e.1.id)).Nodup := by
        rw [validateItems_ok_ids db items total v hv]
        exact hnd
      constructor
      · rw [← hpid]
        simp only []
        rw [applySaleItems_products]
        exact applyDecs_find_of_mem p it.quantity v hvmem hndv db.products p
          (by rw [hpid]; exact hfind)
      · omega

/-- Witness for C10: the concrete distinct-id checkout in the sample
database leaves product 7 with stock 5 − 3 = 2 ≥ 0. -/
theorem createProductSale_distinct_ids_witness :
    (createProductSale sampleDb 1 [⟨7, 3⟩] "card" "2025-04-03").2.products.find?
      (fun x => x.id == 7) =
      some { id := 7, name := "Wax", category := "c", price := 120,
             stock := 5 - 3, description := "" } ∧
    (0 : Int) ≤ 5 - 3 := by
  have h := createProductSale_distinct_ids_stock sampleDb
    (createProductSale sampleDb 1 [⟨7, 3⟩] "card" "2025-04-03").2 1 [⟨7, 3⟩]
    "card" "2025-04-03"
    { id := 1, appointment_id := none, customer_id := some 1, total := 360,
      payment_method := "card", date := "2025-04-03" }
    [{ id := 1, sale_id := 1, item_id := 7, item_type := "product", name := "Wax",
       price := 120, quantity := 3 }]
    "Ali" rfl (by decide) ⟨7, 3⟩ (List.mem_cons_self _ _)
    { id := 7, name := "Wax", category := "c", price := 120, stock := 5,
      description := "" } rfl
  exact ⟨h.1, h.2⟩

end BerberBook
